import Mathlib

/-!
Shallow embedding of `src/chart_types/partition_chart/renderer/canvas/partition.tsx`
(elastic-charts): the render/pick controller of the partition (sunburst / treemap)
chart.  Logical-pixel quantities, pointer coordinates and the device pixel ratio
are modelled as rationals; DOM and framework effects are modelled by explicit
state passing together with event traces recording the externally visible calls.
-/

namespace PartitionChart

/-- Container dimensions in logical pixels (`utils/dimensions.ts`). -/
structure Dimensions where
  width : ℚ
  height : ℚ
  left : ℚ
  top : ℚ
deriving DecidableEq

/-- A point in logical pixels, used for `diskCenter`. -/
structure Point where
  x : ℚ
  y : ℚ
deriving DecidableEq

/-- The surface's bounding rectangle in viewport coordinates, as returned by
`canvas.getBoundingClientRect()`. -/
structure BoundingRect where
  left : ℚ
  top : ℚ
deriving DecidableEq

/-- A pointer event's viewport coordinates (`e.clientX`, `e.clientY`). -/
structure PointerEvent where
  clientX : ℚ
  clientY : ℚ
deriving DecidableEq

/-- Render configuration carried by the geometry snapshot.  The source only ever
touches `width` and `height` (the spread in `drawCanvas`); the remaining
configuration fields are abstracted as an association list `rest`, passed
through opaquely. -/
structure Config where
  width : ℚ
  height : ℚ
  rest : List (String × ℚ)
deriving DecidableEq

/-- A subtree entry of a hierarchy node's `children`; `inputKey` models the
hidden `[INPUT_KEY]` attribute holding the originating data-row indices
(`none` when the attribute is absent, in which case the source falls back to
`[]` via `|| []`). -/
structure Subtree where
  inputKey : Option (List Nat)
deriving DecidableEq

/-- A hierarchy node as seen by the pick path: an ordered sequence of
`[key, subtree]` pairs. -/
structure ParentNode where
  children : List (String × Subtree)
deriving DecidableEq

/-- One picked shape (`QuadViewModel`): its containing hierarchy node and the
key identifying its leaf within that node's children. -/
structure QuadViewModel where
  parent : ParentNode
  dataName : String
deriving DecidableEq

/-- The geometry snapshot (`ShapeViewModel`): render config, the logical-pixel
offset of the shape tree's origin, and the spatial query.  Fields of the real
snapshot not touched by this file are abstracted as `rest`, passed through
opaquely by the object spread in `drawCanvas`. -/
structure ShapeViewModel where
  config : Config
  diskCenter : Point
  pickQuads : ℚ → ℚ → List QuadViewModel
  rest : List (String × ℚ)

/-- Modelled from the spec: `nullShapeViewModel()`
(`layout/types/viewmodel_types.ts`, not under `src/`) — the null/empty variant
of the geometry snapshot used as the default-before-initialization state. -/
def nullShapeViewModel : ShapeViewModel :=
  { config := { width := 0, height := 0, rest := [] }
    diskCenter := { x := 0, y := 0 }
    pickQuads := fun _ _ => []
    rest := [] }

/-- The props projected to the component (`ReactiveChartStateProps`). -/
structure ReactiveChartStateProps where
  initialized : Bool
  geometries : ShapeViewModel
  chartContainerDimensions : Dimensions

/-- The component's own mutable fields: whether `this.ctx` is non-null, and the
device pixel ratio captured at construction. -/
structure ComponentState where
  ctx : Bool
  devicePixelRatio : ℚ

/-- The DOM environment visible to the component: whether `canvasRef.current`
is non-null, whether `getContext('2d')` succeeds, and the surface's current
bounding rectangle. -/
structure DomEnv where
  canvasMounted : Bool
  getContext2dSucceeds : Bool
  boundingRect : BoundingRect

/-- The constructor: `this.ctx = null; this.devicePixelRatio = window.devicePixelRatio`.
The ratio is captured once here and never re-read. -/
def construct (windowDevicePixelRatio : ℚ) : ComponentState :=
  { ctx := false, devicePixelRatio := windowDevicePixelRatio }

/-- The method `tryCanvasContext`: `this.ctx = canvas && canvas.getContext('2d')`. -/
def tryCanvasContext (self : ComponentState) (env : DomEnv) : ComponentState :=
  { self with ctx := env.canvasMounted && env.getContext2dSucceeds }

/-- The geometry snapshot handed to `renderPartitionCanvas2d` by `drawCanvas`:
`{...this.props.geometries, config: {...this.props.geometries.config, width, height}}`
with `width`/`height` the current container dimensions. -/
def patchedGeometries (props : ReactiveChartStateProps) : ShapeViewModel :=
  { props.geometries with
      config := { props.geometries.config with
                    width := props.chartContainerDimensions.width
                    height := props.chartContainerDimensions.height } }

/-- Externally visible events of a lifecycle step: a call to the external
drawing routine `renderPartitionCanvas2d(ctx, pixelRatio, snapshot)` and the
`onChartRendered()` notification. -/
inductive LifecycleEvent where
  | drawCall (pixelRatio : ℚ) (snapshot : ShapeViewModel)
  | chartRendered

/-- Recognizer for the drawing-routine call event. -/
def LifecycleEvent.isDrawCall : LifecycleEvent → Bool
  | .drawCall _ _ => true
  | .chartRendered => false

/-- The method `drawCanvas`, as the sequence of external drawing calls it
performs: nothing when `this.ctx` is null, otherwise one call to
`renderPartitionCanvas2d` with the patched geometry snapshot. -/
def drawCanvas (self : ComponentState) (props : ReactiveChartStateProps) :
    List LifecycleEvent :=
  if self.ctx then
    [LifecycleEvent.drawCall self.devicePixelRatio (patchedGeometries props)]
  else []

/-- Result of a lifecycle step: the updated component state and the trace of
externally visible events, in call order. -/
structure LifecycleOutcome where
  post : ComponentState
  events : List LifecycleEvent

/-- The method `componentDidUpdate`: retry context acquisition if the context
is missing, then, when `initialized`, call `drawCanvas` followed by
`onChartRendered`. -/
def componentDidUpdate (self : ComponentState) (env : DomEnv)
    (props : ReactiveChartStateProps) : LifecycleOutcome :=
  let self1 := if self.ctx then self else tryCanvasContext self env
  if props.initialized then
    { post := self1, events := drawCanvas self1 props ++ [LifecycleEvent.chartRendered] }
  else
    { post := self1, events := [] }

/-- The method `componentDidMount`: acquire the context, then, when
`initialized`, call `drawCanvas` followed by `onChartRendered`. -/
def componentDidMount (self : ComponentState) (env : DomEnv)
    (props : ReactiveChartStateProps) : LifecycleOutcome :=
  let self1 := tryCanvasContext self env
  if props.initialized then
    { post := self1, events := drawCanvas self1 props ++ [LifecycleEvent.chartRendered] }
  else
    { post := self1, events := [] }

/-- The canvas element description produced by `render`: the backing-store
attributes `width`/`height` and the CSS style size. -/
structure CanvasSurface where
  attrWidth : ℚ
  attrHeight : ℚ
  styleWidth : ℚ
  styleHeight : ℚ
deriving DecidableEq

/-- The method `render`: `null` when not initialized or either dimension is
zero, otherwise a canvas sized `width*devicePixelRatio × height*devicePixelRatio`
in backing pixels with CSS style size `width × height`. -/
def render (self : ComponentState) (props : ReactiveChartStateProps) :
    Option CanvasSurface :=
  if props.initialized = false ∨ props.chartContainerDimensions.width = 0 ∨
      props.chartContainerDimensions.height = 0 then
    none
  else
    some { attrWidth := props.chartContainerDimensions.width * self.devicePixelRatio
           attrHeight := props.chartContainerDimensions.height * self.devicePixelRatio
           styleWidth := props.chartContainerDimensions.width
           styleHeight := props.chartContainerDimensions.height }

/-- The data-row indices contributed by one picked shape:
`shape.parent.children.find(([key]) => key === shape.dataName)`, then
`shapeNode[1][INPUT_KEY] || []`; a shape with no matching child key, and a
resolved subtree without the index attribute, both contribute `[]`. -/
def subtreeIndices (shape : QuadViewModel) : List Nat :=
  match shape.parent.children.find? (fun kv => kv.1 == shape.dataName) with
  | some kv => kv.2.inputKey.getD []
  | none => []

/-- Insertion into the JS `Set`, modelled as an insertion-ordered list without
duplicates: `datumIndices.add(i)`. -/
def addToSet (acc : List Nat) (i : Nat) : List Nat :=
  if i ∈ acc then acc else acc ++ [i]

/-- Adding a whole index list to the set: `indices.forEach((i) => datumIndices.add(i))`. -/
def addAll (acc : List Nat) (l : List Nat) : List Nat :=
  l.foldl addToSet acc

/-- The aggregated `datumIndices` set built by the `pickedShapes.forEach` loop,
starting from the empty `new Set()`. -/
def datumIndices (pickedShapes : List QuadViewModel) : List Nat :=
  pickedShapes.foldl (fun acc shape => addAll acc (subtreeIndices shape)) []

/-- Externally visible computations of a pick invocation, in call order. -/
inductive PickEffect where
  | boundingRectRead
  | spatialQuery (x y : ℚ)
  | indexAggregation
deriving DecidableEq

/-- Result of a pick invocation: the returned value (picked shapes together
with the aggregated index set computed alongside them; `none` on precondition
failure), the trace of computations performed, and the post-state. -/
structure PickOutcome where
  ret : Option (List QuadViewModel × List Nat)
  effects : List PickEffect
  post : ComponentState

/-- The method `handleMouseMove`: return early when the surface is unmounted,
the context is missing, the chart is uninitialized, or either dimension is
zero; otherwise read the bounding rectangle, translate the pointer coordinates
by the rectangle's top-left and by `diskCenter`, query `pickQuads`, and
aggregate the picked shapes' data-row indices. -/
def handleMouseMove (self : ComponentState) (env : DomEnv)
    (props : ReactiveChartStateProps) (e : PointerEvent) : PickOutcome :=
  if env.canvasMounted = false ∨ self.ctx = false ∨ props.initialized = false ∨
      props.chartContainerDimensions.width = 0 ∨
      props.chartContainerDimensions.height = 0 then
    { ret := none, effects := [], post := self }
  else
    let box := env.boundingRect
    let diskCenter := props.geometries.diskCenter
    let x := e.clientX - box.left - diskCenter.x
    let y := e.clientY - box.top - diskCenter.y
    let pickedShapes := props.geometries.pickQuads x y
    { ret := some (pickedShapes, datumIndices pickedShapes)
      effects := [PickEffect.boundingRectRead, PickEffect.spatialQuery x y,
        PickEffect.indexAggregation]
      post := self }

/-- The host state, as far as this component observes it. -/
structure GlobalChartState where
  specsInitialized : Bool
  parentDimensions : Dimensions
  partitionGeoms : ShapeViewModel

/-- Modelled from the spec: the selector `isInitialized`
(`state/selectors/is_initialized.ts`, not under `src/`) — whether the host
application state is initialized. -/
def isInitialized (s : GlobalChartState) : Bool :=
  s.specsInitialized

/-- Modelled from the spec: the selector `partitionGeometries`
(`state/selectors/geometries.ts`, not under `src/`) — the geometry snapshot
produced upstream for the current state. -/
def partitionGeometries (s : GlobalChartState) : ShapeViewModel :=
  s.partitionGeoms

/-- The fixed default props used while the chart is not initialized. -/
def DEFAULT_PROPS : ReactiveChartStateProps :=
  { initialized := false
    geometries := nullShapeViewModel
    chartContainerDimensions := { width := 0, height := 0, left := 0, top := 0 } }

/-- The function `mapStateToProps`: the fixed defaults while uninitialized,
otherwise the live geometry snapshot and parent dimensions. -/
def mapStateToProps (s : GlobalChartState) : ReactiveChartStateProps :=
  if isInitialized s = false then DEFAULT_PROPS
  else
    { initialized := true
      geometries := partitionGeometries s
      chartContainerDimensions := s.parentDimensions }

/-! ### Helper lemmas -/

lemma mem_addToSet (acc : List Nat) (i j : Nat) :
    j ∈ addToSet acc i ↔ j ∈ acc ∨ j = i := by
  by_cases h : i ∈ acc
  · simp only [addToSet, if_pos h]
    constructor
    · exact Or.inl
    · rintro (hj | rfl)
      · exact hj
      · exact h
  · simp [addToSet, if_neg h]

lemma nodup_addToSet (acc : List Nat) (i : Nat) (h : acc.Nodup) :
    (addToSet acc i).Nodup := by
  by_cases hi : i ∈ acc
  · simpa [addToSet, if_pos hi] using h
  · simp only [addToSet, if_neg hi]
    refine List.Nodup.append h (List.nodup_singleton i) ?_
    intro a ha hb
    simp only [List.mem_singleton] at hb
    subst hb
    exact hi ha

lemma mem_addAll (l acc : List Nat) (j : Nat) :
    j ∈ addAll acc l ↔ j ∈ acc ∨ j ∈ l := by
  induction l generalizing acc with
  | nil => simp [addAll]
  | cons a t ih =>
      have h1 : addAll acc (a :: t) = addAll (addToSet acc a) t := rfl
      rw [h1, ih, mem_addToSet]
      simp only [List.mem_cons]
      tauto

lemma nodup_addAll (l acc : List Nat) (h : acc.Nodup) : (addAll acc l).Nodup := by
  induction l generalizing acc with
  | nil => simpa [addAll] using h
  | cons a t ih =>
      show (addAll (addToSet acc a) t).Nodup
      exact ih (addToSet acc a) (nodup_addToSet acc a h)

lemma mem_datumIndices_foldl (shapes : List QuadViewModel) (acc : List Nat) (j : Nat) :
    j ∈ shapes.foldl (fun acc2 shape => addAll acc2 (subtreeIndices shape)) acc ↔
      j ∈ acc ∨ ∃ s, s ∈ shapes ∧ j ∈ subtreeIndices s := by
  induction shapes generalizing acc with
  | nil => simp
  | cons a t ih =>
      rw [List.foldl_cons, ih, mem_addAll]
      constructor
      · rintro ((h | h) | ⟨s, hs, hj⟩)
        · exact Or.inl h
        · exact Or.inr ⟨a, List.mem_cons_self a t, h⟩
        · exact Or.inr ⟨s, List.mem_cons_of_mem a hs, hj⟩
      · rintro (h | ⟨s, hs, hj⟩)
        · exact Or.inl (Or.inl h)
        · rcases List.mem_cons.mp hs with rfl | hs2
          · exact Or.inl (Or.inr hj)
          · exact Or.inr ⟨s, hs2, hj⟩

lemma nodup_datumIndices_foldl (shapes : List QuadViewModel) (acc : List Nat)
    (h : acc.Nodup) :
    (shapes.foldl (fun acc2 shape => addAll acc2 (subtreeIndices shape)) acc).Nodup := by
  induction shapes generalizing acc with
  | nil => simpa using h
  | cons a t ih =>
      rw [List.foldl_cons]
      exact ih (addAll acc (subtreeIndices a)) (nodup_addAll (subtreeIndices a) acc h)

lemma handleMouseMove_pos (self : ComponentState) (env : DomEnv)
    (props : ReactiveChartStateProps) (e : PointerEvent)
    (hm : env.canvasMounted = true) (hc : self.ctx = true)
    (hi : props.initialized = true)
    (hw : props.chartContainerDimensions.width ≠ 0)
    (hh : props.chartContainerDimensions.height ≠ 0) :
    handleMouseMove self env props e =
      { ret := some
          (props.geometries.pickQuads
              (e.clientX - env.boundingRect.left - props.geometries.diskCenter.x)
              (e.clientY - env.boundingRect.top - props.geometries.diskCenter.y),
            datumIndices (props.geometries.pickQuads
              (e.clientX - env.boundingRect.left - props.geometries.diskCenter.x)
              (e.clientY - env.boundingRect.top - props.geometries.diskCenter.y)))
        effects := [PickEffect.boundingRectRead,
          PickEffect.spatialQuery
            (e.clientX - env.boundingRect.left - props.geometries.diskCenter.x)
            (e.clientY - env.boundingRect.top - props.geometries.diskCenter.y),
          PickEffect.indexAggregation]
        post := self } := by
  unfold handleMouseMove
  split
  · rename_i h
    rcases h with h | h | h | h | h <;> simp_all
  · rfl

lemma handleMouseMove_post (self : ComponentState) (env : DomEnv)
    (props : ReactiveChartStateProps) (e : PointerEvent) :
    (handleMouseMove self env props e).post = self := by
  unfold handleMouseMove
  split <;> rfl

/-! ### Claim C1 -/

/-- C1: for every pick invocation with the surface mounted, a context acquired,
the chart initialized, and both container dimensions non-zero, the point handed
to `pickQuads` is the pointer's viewport coordinates translated by the bounding
rectangle's top-left and then by `diskCenter`:
`x = clientX - rect.left - diskCenter.x`, `y = clientY - rect.top - diskCenter.y`;
the result is the query's answer at exactly that point. -/
theorem c1_pick_point (self : ComponentState) (env : DomEnv)
    (props : ReactiveChartStateProps) (e : PointerEvent)
    (hm : env.canvasMounted = true) (hc : self.ctx = true)
    (hi : props.initialized = true)
    (hw : props.chartContainerDimensions.width ≠ 0)
    (hh : props.chartContainerDimensions.height ≠ 0) :
    (handleMouseMove self env props e).effects =
      [PickEffect.boundingRectRead,
        PickEffect.spatialQuery
          (e.clientX - env.boundingRect.left - props.geometries.diskCenter.x)
          (e.clientY - env.boundingRect.top - props.geometries.diskCenter.y),
        PickEffect.indexAggregation] ∧
    (handleMouseMove self env props e).ret =
      some (props.geometries.pickQuads
          (e.clientX - env.boundingRect.left - props.geometries.diskCenter.x)
          (e.clientY - env.boundingRect.top - props.geometries.diskCenter.y),
        datumIndices (props.geometries.pickQuads
          (e.clientX - env.boundingRect.left - props.geometries.diskCenter.x)
          (e.clientY - env.boundingRect.top - props.geometries.diskCenter.y))) := by
  rw [handleMouseMove_pos self env props e hm hc hi hw hh]
  exact ⟨rfl, rfl⟩

def c1Subtree : Subtree := { inputKey := some [7] }

def c1Parent : ParentNode := { children := [("slice", c1Subtree)] }

def c1Shape : QuadViewModel := { parent := c1Parent, dataName := "slice" }

def c1Geometry : ShapeViewModel :=
  { config := { width := 100, height := 100, rest := [] }
    diskCenter := { x := 50, y := 50 }
    pickQuads := fun x y => if x = 0 ∧ y = 0 then [c1Shape] else []
    rest := [] }

def c1Self : ComponentState := { ctx := true, devicePixelRatio := 1 }

def c1Env : DomEnv :=
  { canvasMounted := true, getContext2dSucceeds := true
    boundingRect := { left := 10, top := 10 } }

def c1Props : ReactiveChartStateProps :=
  { initialized := true, geometries := c1Geometry
    chartContainerDimensions := { width := 100, height := 100, left := 0, top := 0 } }

def c1Event : PointerEvent := { clientX := 60, clientY := 60 }

/-- C1 witness: with `diskCenter = (50,50)`, the bounding rect at viewport
`(10,10)` and a pointer at `(60,60)`, the spatial index is queried at
chart-local `(0,0)` and the shape registered there is picked. -/
theorem c1_pick_point_witness :
    (handleMouseMove c1Self c1Env c1Props c1Event).effects =
      [PickEffect.boundingRectRead, PickEffect.spatialQuery 0 0,
        PickEffect.indexAggregation] ∧
    (handleMouseMove c1Self c1Env c1Props c1Event).ret = some ([c1Shape], [7]) := by
  have h := c1_pick_point c1Self c1Env c1Props c1Event rfl rfl rfl
    (by norm_num [c1Props]) (by norm_num [c1Props])
  have e0 : c1Event.clientX - c1Env.boundingRect.left -
      c1Props.geometries.diskCenter.x = 0 := by
    norm_num [c1Event, c1Env, c1Props, c1Geometry]
  have e1 : c1Event.clientY - c1Env.boundingRect.top -
      c1Props.geometries.diskCenter.y = 0 := by
    norm_num [c1Event, c1Env, c1Props, c1Geometry]
  rw [h.1, h.2, e0, e1]
  exact ⟨rfl, rfl⟩

/-! ### Claim C2 -/

/-- C2: whenever the surface is not mounted, or no drawing context has been
acquired, or the chart is not initialized, or either container dimension is
zero, `handleMouseMove` returns `none` immediately and performs no computation:
no bounding-rect read, no spatial query, no index aggregation. -/
theorem c2_preconditions_none (self : ComponentState) (env : DomEnv)
    (props : ReactiveChartStateProps) (e : PointerEvent)
    (h : env.canvasMounted = false ∨ self.ctx = false ∨
      props.initialized = false ∨ props.chartContainerDimensions.width = 0 ∨
      props.chartContainerDimensions.height = 0) :
    handleMouseMove self env props e = { ret := none, effects := [], post := self } := by
  unfold handleMouseMove
  rw [if_pos h]

def c2Self : ComponentState := { ctx := true, devicePixelRatio := 1 }

def c2Env : DomEnv :=
  { canvasMounted := true, getContext2dSucceeds := true
    boundingRect := { left := 0, top := 0 } }

def c2Props : ReactiveChartStateProps :=
  { initialized := true, geometries := nullShapeViewModel
    chartContainerDimensions := { width := 0, height := 100, left := 0, top := 0 } }

def c2Event : PointerEvent := { clientX := 5, clientY := 5 }

/-- C2 witness: with `width = 0` the pick returns `none` with an empty effect
trace even though the chart is initialized, the surface mounted and the context
acquired. -/
theorem c2_preconditions_none_witness :
    c2Props.initialized = true ∧ c2Self.ctx = true ∧
    c2Props.chartContainerDimensions.width = 0 ∧
    handleMouseMove c2Self c2Env c2Props c2Event =
      { ret := none, effects := [], post := c2Self } :=
  ⟨rfl, rfl, rfl,
    c2_preconditions_none c2Self c2Env c2Props c2Event
      (Or.inr (Or.inr (Or.inr (Or.inl rfl))))⟩

/-! ### Claim C6 -/

/-- C6: when the preconditions hold, the value returned by `handleMouseMove`
is exactly the raw shape sequence produced by `pickQuads` (the aggregated index
collection does not alter it), and a point outside every shape yields the empty
sequence with an empty index collection rather than `none`. -/
theorem c6_raw_return (self : ComponentState) (env : DomEnv)
    (props : ReactiveChartStateProps) (e : PointerEvent)
    (hm : env.canvasMounted = true) (hc : self.ctx = true)
    (hi : props.initialized = true)
    (hw : props.chartContainerDimensions.width ≠ 0)
    (hh : props.chartContainerDimensions.height ≠ 0) :
    ((handleMouseMove self env props e).ret).map Prod.fst =
      some (props.geometries.pickQuads
        (e.clientX - env.boundingRect.left - props.geometries.diskCenter.x)
        (e.clientY - env.boundingRect.top - props.geometries.diskCenter.y)) ∧
    (props.geometries.pickQuads
        (e.clientX - env.boundingRect.left - props.geometries.diskCenter.x)
        (e.clientY - env.boundingRect.top - props.geometries.diskCenter.y) = [] →
      (handleMouseMove self env props e).ret = some ([], [])) := by
  rw [handleMouseMove_pos self env props e hm hc hi hw hh]
  refine ⟨rfl, fun h0 => ?_⟩
  simp only [h0]
  rfl

def c6Geometry : ShapeViewModel :=
  { config := { width := 20, height := 10, rest := [] }
    diskCenter := { x := 0, y := 0 }
    pickQuads := fun _ _ => []
    rest := [] }

def c6Self : ComponentState := { ctx := true, devicePixelRatio := 1 }

def c6Env : DomEnv :=
  { canvasMounted := true, getContext2dSucceeds := true
    boundingRect := { left := 0, top := 0 } }

def c6Props : ReactiveChartStateProps :=
  { initialized := true, geometries := c6Geometry
    chartContainerDimensions := { width := 20, height := 10, left := 0, top := 0 } }

def c6Event : PointerEvent := { clientX := 3, clientY := 4 }

/-- C6 witness: with a spatial query that hits no shape, the pick returns the
empty sequence together with the empty index collection, not `none`. -/
theorem c6_raw_return_witness :
    (handleMouseMove c6Self c6Env c6Props c6Event).ret = some ([], []) := by
  have h := (c6_raw_return c6Self c6Env c6Props c6Event rfl rfl rfl
    (by norm_num [c6Props]) (by norm_num [c6Props])).2
  exact h rfl

/-! ### Claim C9 -/

/-- C9: invoking the pick twice with identical pointer coordinates, the
unchanged geometry snapshot, bounding rectangle and preconditions — the second
call starting from the state left by the first — yields an identical outcome:
identical picked-shape sequence and identical aggregated index set. -/
theorem c9_idempotent (self : ComponentState) (env : DomEnv)
    (props : ReactiveChartStateProps) (e : PointerEvent) :
    handleMouseMove (handleMouseMove self env props e).post env props e =
      handleMouseMove self env props e := by
  rw [handleMouseMove_post]

/-! ### Claim C3 -/

/-- C3: the aggregated index collection is the de-duplicated union, over all
picked shapes, of the index set carried by the subtree found in the shape's
parent's children under the shape's `dataName`; a shape whose `dataName`
matches no child key contributes zero indices without removing other shapes'
contributions, and a resolved subtree without the index attribute contributes
the empty sequence. -/
theorem c3_aggregated_indices (shapes : List QuadViewModel) :
    ((datumIndices shapes).Nodup ∧
      ∀ j, j ∈ datumIndices shapes ↔ ∃ s, s ∈ shapes ∧ j ∈ subtreeIndices s) ∧
    (∀ s : QuadViewModel,
      s.parent.children.find? (fun kv => kv.1 == s.dataName) = none →
        subtreeIndices s = []) ∧
    (∀ s : QuadViewModel, ∀ kv : String × Subtree,
      s.parent.children.find? (fun kv2 => kv2.1 == s.dataName) = some kv →
        kv.2.inputKey = none → subtreeIndices s = []) := by
  refine ⟨⟨?_, ?_⟩, ?_, ?_⟩
  · exact nodup_datumIndices_foldl shapes [] List.nodup_nil
  · intro j
    have h := mem_datumIndices_foldl shapes [] j
    simpa using h
  · intro s h
    simp [subtreeIndices, h]
  · intro s kv h1 h2
    simp [subtreeIndices, h1, h2]

def c3SubtreeA : Subtree := { inputKey := some [1, 2] }

def c3SubtreeB : Subtree := { inputKey := some [2, 3] }

def c3Parent : ParentNode :=
  { children := [("a", c3SubtreeA), ("b", c3SubtreeB)] }

def c3ShapeA : QuadViewModel := { parent := c3Parent, dataName := "a" }

def c3ShapeB : QuadViewModel := { parent := c3Parent, dataName := "b" }

def c3ShapeMissing : QuadViewModel := { parent := c3Parent, dataName := "zzz" }

/-- C3 witness: two picked shapes carrying index sets `{1,2}` and `{2,3}`
aggregate to `{1,2,3}` with duplicates merged; a shape whose `dataName`
matches no child key contributes nothing and removes nothing. -/
theorem c3_aggregated_indices_witness :
    datumIndices [c3ShapeA, c3ShapeB] = [1, 2, 3] ∧
    datumIndices [c3ShapeA, c3ShapeMissing, c3ShapeB] = [1, 2, 3] ∧
    subtreeIndices c3ShapeMissing = [] ∧
    (3 ∈ datumIndices [c3ShapeA, c3ShapeB] ↔
      ∃ s, s ∈ [c3ShapeA, c3ShapeB] ∧ 3 ∈ subtreeIndices s) := by
  refine ⟨by decide, by decide, ?_, ((c3_aggregated_indices [c3ShapeA, c3ShapeB]).1.2 3)⟩
  exact (c3_aggregated_indices []).2.1 c3ShapeMissing (by decide)

/-! ### Claim C5 -/

/-- C5: a render dispatch with no drawing context is a no-op with no side
effects; with a context present, the external drawing routine is invoked with
the captured pixel ratio and a geometry snapshot whose `config.width` and
`config.height` are replaced by the current container dimensions while every
other field of the snapshot and of its config is passed through unchanged. -/
theorem c5_draw_dispatch (self : ComponentState) (props : ReactiveChartStateProps) :
    (self.ctx = false → drawCanvas self props = []) ∧
    (self.ctx = true →
      drawCanvas self props =
        [LifecycleEvent.drawCall self.devicePixelRatio (patchedGeometries props)] ∧
      (patchedGeometries props).config.width = props.chartContainerDimensions.width ∧
      (patchedGeometries props).config.height = props.chartContainerDimensions.height ∧
      (patchedGeometries props).config.rest = props.geometries.config.rest ∧
      (patchedGeometries props).diskCenter = props.geometries.diskCenter ∧
      (patchedGeometries props).pickQuads = props.geometries.pickQuads ∧
      (patchedGeometries props).rest = props.geometries.rest) := by
  constructor
  · intro h
    simp [drawCanvas, h]
  · intro h
    exact ⟨by simp [drawCanvas, h], rfl, rfl, rfl, rfl, rfl, rfl⟩

def c5Geometry : ShapeViewModel :=
  { config := { width := 7, height := 8, rest := [("padding", 4)] }
    diskCenter := { x := 2, y := 3 }
    pickQuads := fun _ _ => []
    rest := [("extra", 1)] }

def c5Self : ComponentState := { ctx := true, devicePixelRatio := 2 }

def c5Props : ReactiveChartStateProps :=
  { initialized := true, geometries := c5Geometry
    chartContainerDimensions := { width := 30, height := 40, left := 0, top := 0 } }

def c5SelfNoCtx : ComponentState := { ctx := false, devicePixelRatio := 2 }

/-- C5 witness: with a context, the dispatched snapshot has its config size
overridden to the container's `30 × 40` while `diskCenter`, the remaining
config fields and the remaining snapshot fields are untouched; without a
context the dispatch emits nothing. -/
theorem c5_draw_dispatch_witness :
    drawCanvas c5Self c5Props =
      [LifecycleEvent.drawCall 2 (patchedGeometries c5Props)] ∧
    (patchedGeometries c5Props).config.width = 30 ∧
    (patchedGeometries c5Props).config.height = 40 ∧
    (patchedGeometries c5Props).config.rest = [("padding", 4)] ∧
    (patchedGeometries c5Props).diskCenter = { x := 2, y := 3 } ∧
    drawCanvas c5SelfNoCtx c5Props = [] := by
  obtain ⟨h1, h2, h3, h4, h5, -⟩ := (c5_draw_dispatch c5Self c5Props).2 rfl
  exact ⟨h1, h2, h3, h4, h5, (c5_draw_dispatch c5SelfNoCtx c5Props).1 rfl⟩

/-! ### Claim C7 -/

/-- C7: for every rendered (non-suppressed) state and every positive pixel
ratio, including non-integer ratios, the backing surface's pixel width and
height equal the logical container width and height multiplied by the device
pixel ratio captured at construction, while the displayed CSS size is exactly
`width × height`, independent of the ratio. -/
theorem c7_backing_size (windowDevicePixelRatio : ℚ)
    (props : ReactiveChartStateProps) (surface : CanvasSurface)
    (_hpos : 0 < windowDevicePixelRatio)
    (h : render (construct windowDevicePixelRatio) props = some surface) :
    surface.attrWidth = props.chartContainerDimensions.width * windowDevicePixelRatio ∧
    surface.attrHeight = props.chartContainerDimensions.height * windowDevicePixelRatio ∧
    surface.styleWidth = props.chartContainerDimensions.width ∧
    surface.styleHeight = props.chartContainerDimensions.height := by
  unfold render at h
  split at h
  · exact absurd h (by simp)
  · injection h with h2
    subst h2
    exact ⟨rfl, rfl, rfl, rfl⟩

def c7Props : ReactiveChartStateProps :=
  { initialized := true, geometries := nullShapeViewModel
    chartContainerDimensions := { width := 100, height := 50, left := 0, top := 0 } }

def c7Surface : CanvasSurface :=
  { attrWidth := 100 * (5 / 2 : ℚ), attrHeight := 50 * (5 / 2 : ℚ)
    styleWidth := 100, styleHeight := 50 }

/-- C7 witness: ratio `5/2` with logical `100 × 50` yields backing
`250 × 125` while the CSS size stays `100 × 50`. -/
theorem c7_backing_size_witness :
    c7Surface.attrWidth = 250 ∧ c7Surface.attrHeight = 125 ∧
    c7Surface.styleWidth = 100 ∧ c7Surface.styleHeight = 50 := by
  have h := c7_backing_size (5 / 2) c7Props c7Surface (by norm_num)
    (by norm_num [render, construct, c7Props, c7Surface])
  obtain ⟨h1, h2, h3, h4⟩ := h
  refine ⟨?_, ?_, ?_, ?_⟩
  · rw [h1]; norm_num [c7Props]
  · rw [h2]; norm_num [c7Props]
  · rw [h3]; norm_num [c7Props]
  · rw [h4]; norm_num [c7Props]

/-! ### Claim C4 -/

def c4Self : ComponentState := { ctx := false, devicePixelRatio := 1 }

def c4Env : DomEnv :=
  { canvasMounted := false, getContext2dSucceeds := true
    boundingRect := { left := 0, top := 0 } }

def c4Props : ReactiveChartStateProps :=
  { initialized := true, geometries := nullShapeViewModel
    chartContainerDimensions := { width := 0, height := 0, left := 0, top := 0 } }

/-- C4 counterexample: on a mount step with the chart initialized but both
container dimensions zero and no drawing context (so the external drawing
routine is never invoked), the render-completion notification is emitted
anyway — refuting the claim that it is emitted only when both dimensions are
non-zero and a draw actually happened. -/
theorem c4_notification_counterexample :
    (componentDidMount c4Self c4Env c4Props).events = [LifecycleEvent.chartRendered] ∧
    c4Props.chartContainerDimensions.width = 0 ∧
    c4Props.chartContainerDimensions.height = 0 ∧
    ∀ ev ∈ (componentDidMount c4Self c4Env c4Props).events, ev.isDrawCall = false := by
  refine ⟨rfl, rfl, rfl, ?_⟩
  intro ev hev
  have h : (componentDidMount c4Self c4Env c4Props).events =
      [LifecycleEvent.chartRendered] := rfl
  rw [h] at hev
  simp only [List.mem_singleton] at hev
  subst hev
  rfl

/-- C4 (amended): on every mount or update step, the render-completion
notification is emitted exactly when the chart is initialized — regardless of
the container dimensions and of whether the external drawing routine was
actually invoked (`drawCanvas` is called but is a no-op without a context). -/
theorem c4_notification_amended (self : ComponentState) (env : DomEnv)
    (props : ReactiveChartStateProps) :
    (LifecycleEvent.chartRendered ∈ (componentDidMount self env props).events ↔
      props.initialized = true) ∧
    (LifecycleEvent.chartRendered ∈ (componentDidUpdate self env props).events ↔
      props.initialized = true) := by
  refine ⟨?_, ?_⟩
  · unfold componentDidMount
    cases hin : props.initialized <;> simp [hin]
  · unfold componentDidUpdate
    cases hin : props.initialized <;> simp [hin]

/-! ### Claim C8 -/

lemma chartRendered_not_mem_drawCanvas (self : ComponentState)
    (props : ReactiveChartStateProps) :
    LifecycleEvent.chartRendered ∉ drawCanvas self props := by
  unfold drawCanvas
  split <;> simp

lemma drawCall_before_append_chartRendered (d : List LifecycleEvent)
    (hd : LifecycleEvent.chartRendered ∉ d) :
    ∀ (i j : Nat) (r : ℚ) (g : ShapeViewModel),
      (d ++ [LifecycleEvent.chartRendered])[i]? = some (LifecycleEvent.drawCall r g) →
      (d ++ [LifecycleEvent.chartRendered])[j]? = some LifecycleEvent.chartRendered →
      i < j := by
  induction d with
  | nil =>
      intro i j r g hi _
      cases i with
      | zero => simp at hi
      | succ n => simp at hi
  | cons a t ih =>
      intro i j r g hi hj
      have hd1 : a ≠ LifecycleEvent.chartRendered :=
        fun h => hd (h ▸ List.mem_cons_self a t)
      have hd2 : LifecycleEvent.chartRendered ∉ t :=
        fun h => hd (List.mem_cons_of_mem a h)
      cases j with
      | zero =>
          simp only [List.cons_append, List.getElem?_cons_zero,
            Option.some.injEq] at hj
          exact absurd hj hd1
      | succ m =>
          cases i with
          | zero => exact Nat.succ_pos m
          | succ n =>
              have h2 := ih hd2 n m r g (by simpa using hi) (by simpa using hj)
              omega

/-- C8: in every mount or update step, every call to the external drawing
routine strictly precedes every render-completion notification in the step's
call order — the notification fires only after the drawing call has returned. -/
theorem c8_draw_before_signal (self : ComponentState) (env : DomEnv)
    (props : ReactiveChartStateProps) (i j : Nat) (r : ℚ) (g : ShapeViewModel) :
    ((componentDidMount self env props).events[i]? =
        some (LifecycleEvent.drawCall r g) →
      (componentDidMount self env props).events[j]? =
        some LifecycleEvent.chartRendered →
      i < j) ∧
    ((componentDidUpdate self env props).events[i]? =
        some (LifecycleEvent.drawCall r g) →
      (componentDidUpdate self env props).events[j]? =
        some LifecycleEvent.chartRendered →
      i < j) := by
  constructor
  · intro hi hj
    by_cases hin : props.initialized = true
    · have he : (componentDidMount self env props).events =
          drawCanvas (tryCanvasContext self env) props ++
            [LifecycleEvent.chartRendered] := by
        simp only [componentDidMount]
        rw [if_pos hin]
      rw [he] at hi hj
      exact drawCall_before_append_chartRendered _
        (chartRendered_not_mem_drawCanvas _ _) i j r g hi hj
    · have he : (componentDidMount self env props).events = [] := by
        simp only [componentDidMount]
        rw [if_neg hin]
      rw [he] at hi
      simp at hi
  · intro hi hj
    by_cases hin : props.initialized = true
    · have he : (componentDidUpdate self env props).events =
          drawCanvas (if self.ctx then self else tryCanvasContext self env) props ++
            [LifecycleEvent.chartRendered] := by
        simp only [componentDidUpdate]
        rw [if_pos hin]
      rw [he] at hi hj
      exact drawCall_before_append_chartRendered _
        (chartRendered_not_mem_drawCanvas _ _) i j r g hi hj
    · have he : (componentDidUpdate self env props).events = [] := by
        simp only [componentDidUpdate]
        rw [if_neg hin]
      rw [he] at hi
      simp at hi

def c8Self : ComponentState := { ctx := false, devicePixelRatio := 1 }

def c8Env : DomEnv :=
  { canvasMounted := true, getContext2dSucceeds := true
    boundingRect := { left := 0, top := 0 } }

def c8Props : ReactiveChartStateProps :=
  { initialized := true, geometries := nullShapeViewModel
    chartContainerDimensions := { width := 10, height := 10, left := 0, top := 0 } }

/-- C8 witness: on a concrete mount step whose trace is the drawing call
followed by the notification, the drawing call's position 0 strictly precedes
the notification's position 1. -/
theorem c8_draw_before_signal_witness :
    (componentDidMount c8Self c8Env c8Props).events[0]? =
      some (LifecycleEvent.drawCall 1 (patchedGeometries c8Props)) ∧
    (componentDidMount c8Self c8Env c8Props).events[1]? =
      some LifecycleEvent.chartRendered ∧
    (0 : Nat) < 1 := by
  refine ⟨rfl, rfl, ?_⟩
  exact (c8_draw_before_signal c8Self c8Env c8Props 0 1 1
    (patchedGeometries c8Props)).1 rfl rfl

/-! ### Claim C10 -/

/-- C10: whenever the host state is not initialized, the projected props are
exactly the fixed defaults — `initialized = false`, the null shape view-model,
and all-zero container dimensions — so at the component boundary an
uninitialized chart always also has zero dimensions and a null geometry, and
props with `initialized = false` can only be those defaults. -/
theorem c10_default_props (s : GlobalChartState) :
    (isInitialized s = false →
      mapStateToProps s =
        { initialized := false, geometries := nullShapeViewModel
          chartContainerDimensions := { width := 0, height := 0, left := 0, top := 0 } }) ∧
    ((mapStateToProps s).initialized = false →
      (mapStateToProps s).geometries = nullShapeViewModel ∧
      (mapStateToProps s).chartContainerDimensions =
        { width := 0, height := 0, left := 0, top := 0 }) := by
  constructor
  · intro h
    unfold mapStateToProps
    rw [if_pos h]
    rfl
  · intro h
    cases hin : isInitialized s
    · have he : mapStateToProps s = DEFAULT_PROPS := by
        unfold mapStateToProps
        rw [if_pos hin]
      rw [he]
      exact ⟨rfl, rfl⟩
    · exfalso
      have he : (mapStateToProps s).initialized = true := by
        unfold mapStateToProps
        rw [if_neg (by simp [hin])]
      rw [he] at h
      exact Bool.noConfusion h

def c10Geometry : ShapeViewModel :=
  { config := { width := 9, height := 9, rest := [] }
    diskCenter := { x := 1, y := 1 }
    pickQuads := fun _ _ => []
    rest := [] }

def c10State : GlobalChartState :=
  { specsInitialized := false
    parentDimensions := { width := 123, height := 456, left := 7, top := 8 }
    partitionGeoms := c10Geometry }

/-- C10 witness: an uninitialized host state carrying non-zero parent
dimensions and a non-null geometry still projects to the fixed defaults. -/
theorem c10_default_props_witness :
    isInitialized c10State = false ∧
    mapStateToProps c10State =
      { initialized := false, geometries := nullShapeViewModel
        chartContainerDimensions := { width := 0, height := 0, left := 0, top := 0 } } :=
  ⟨rfl, (c10_default_props c10State).1 rfl⟩

end PartitionChart
